import Mathlib

/-!
Verification of the Financial Calculation and Query Dispatch Engine
(`src/tools/financial_calc.py` of the finbot repository).

The shallow embedding below mirrors the Python source:

* Python floats are modelled by exact rationals (`ℚ`); the claims under
  scrutiny all speak about exact/`within tolerance` arithmetic facts, which
  become exact equalities over `ℚ`.
* `math.pow` is modelled by `powQ`, which agrees with the source for integer
  exponents (the only exponents any claim touches); a fractional exponent
  (whose value is irrational, hence outside `ℚ`) is mapped to `0`.
* A Python function that can raise is modelled in the `Except PyExc` monad;
  a `try/except` block is a `match` on that monad.  A function that only
  returns the source's `{"success": ..., ...}` dictionaries is total and
  returns a `PyResult`.
* Python `dict`s built by the parser are association lists with
  insertion-order semantics (`dictSet` overwrites an existing key in place,
  as Python assignment does); JSON values are the `PyVal` inductive.
* `json.loads` is re-implemented as an executable recursive-descent JSON
  reader (`json_loads`); `float(...)` as `pyFloat`.  Exotic inputs accepted
  by CPython but not by strict JSON (NaN/Infinity literals, numeric
  underscores) are treated as parse failures; no claim depends on them.
-/

/-- Python exception values; the payload is the text `str(e)` renders. -/
inductive PyExc where
  | valueError (m : String)
  | typeError (m : String)
  | indexError (m : String)
  | keyError (m : String)
  | attributeError (m : String)
  | jsonDecodeError (m : String)
  | zeroDivisionError (m : String)
  deriving DecidableEq, Repr

/-- The message text of an exception, i.e. what `str(e)` produces. -/
def PyExc.msg : PyExc → String
  | .valueError m => m
  | .typeError m => m
  | .indexError m => m
  | .keyError m => m
  | .attributeError m => m
  | .jsonDecodeError m => m
  | .zeroDivisionError m => m

/-- A Python value as produced by `json.loads` or built by the text parser.
Numbers (ints and floats alike) are exact rationals. -/
inductive PyVal where
  | null
  | boolean (b : Bool)
  | num (q : ℚ)
  | str (s : String)
  | arr (l : List PyVal)
  | obj (l : List (String × PyVal))
  deriving Repr

/-- The source's calculator outcome dictionaries
`{"success": True, "result": r}` and `{"success": False, "error": e}`. -/
inductive PyResult (α : Type) where
  | success (r : α)
  | failure (error : String)
  deriving DecidableEq, Repr

/-- Python dictionary membership test `k in d` for an association list. -/
def dictHasKey (l : List (String × PyVal)) (k : String) : Bool :=
  l.any (fun p => p.1 = k)

/-- Python dictionary assignment `d[k] = v`: overwrite the existing entry in
place if the key is present, append otherwise. -/
def dictSet (l : List (String × PyVal)) (k : String) (v : PyVal) :
    List (String × PyVal) :=
  match l with
  | [] => [(k, v)]
  | (k0, v0) :: rest =>
      if k0 = k then (k0, v) :: rest else (k0, v0) :: dictSet rest k v

/-- Python dictionary lookup `d[k]` on an association list. -/
def dictFind (l : List (String × PyVal)) (k : String) : Option PyVal :=
  match l with
  | [] => none
  | (k0, v0) :: rest => if k0 = k then some v0 else dictFind rest k

/-- Boolean check that `small` is a prefix of `big` (character lists). -/
def charsStartWith : List Char → List Char → Bool
  | [], _ => true
  | _ :: _, [] => false
  | a :: as_, b :: bs => a = b && charsStartWith as_ bs

/-- Python substring test `needle in hay` on character lists. -/
def charsHaveSub (needle : List Char) : List Char → Bool
  | [] => needle.isEmpty
  | c :: rest => charsStartWith needle (c :: rest) || charsHaveSub needle rest

/-- Python substring test `needle in hay` on strings. -/
def strHasSub (needle hay : String) : Bool :=
  charsHaveSub needle.data hay.data

/-- Python `str.lower()` (character-wise lowercasing; written on the
character list so that it reduces in the kernel). -/
def pyStrLower (s : String) : String := String.mk (s.data.map Char.toLower)

/-- Python whitespace test used by `str.split()` / `str.strip()`. -/
def isPyWs (c : Char) : Bool :=
  c = ' ' || c = '\t' || c = '\n' || c = '\r'

/-- Accumulator pass for `splitWs`; `cur` is the reversed current token. -/
def splitWsGo (cur : List Char) : List Char → List String
  | [] => if cur.isEmpty then [] else [String.mk cur.reverse]
  | c :: rest =>
      if isPyWs c then
        if cur.isEmpty then splitWsGo [] rest
        else String.mk cur.reverse :: splitWsGo [] rest
      else splitWsGo (c :: cur) rest

/-- Python `query.strip().split()`: split on runs of whitespace, dropping
empty pieces. -/
def splitWs (cs : List Char) : List String :=
  splitWsGo [] cs

/-- Digit test for the numeric scanners (code points 48-57). -/
def isDig (c : Char) : Bool := 48 ≤ c.toNat && c.toNat ≤ 57

/-- Numeric value of a decimal digit character. -/
def digVal (c : Char) : ℕ := c.toNat - 48

/-- Reads a maximal run of decimal digits, accumulating their value. -/
def scanDigits : List Char → ℕ → ℕ × ℕ × List Char
  | [], acc => (acc, 0, [])
  | c :: rest, acc =>
      if isDig c then
        let r := scanDigits rest (acc * 10 + digVal c)
        (r.1, r.2.1 + 1, r.2.2)
      else (acc, 0, c :: rest)

/-- The error message CPython's `float()` raises on a malformed literal. -/
def floatErrMsg (s : String) : String :=
  "could not convert string to float: '" ++ s ++ "'"

/-- Parses an optional sign, returning the sign as `1` or `-1`. -/
def scanSign : List Char → ℤ × List Char
  | '-' :: rest => (-1, rest)
  | '+' :: rest => (1, rest)
  | cs => (1, cs)

/-- Scans `digits [. digits] [(e|E) sign digits]` into an exact rational.
Returns `none` when the shape is not a float literal. -/
def scanFloatBody (cs : List Char) : Option (ℚ × List Char) :=
  let (ip, ipn, cs1) := scanDigits cs 0
  match cs1 with
  | '.' :: cs2 =>
      let (fp, fpn, cs3) := scanDigits cs2 0
      if ipn = 0 && fpn = 0 then none
      else
        let mant : ℚ := (ip : ℚ) + (fp : ℚ) / ((10 : ℚ) ^ fpn)
        match cs3 with
        | 'e' :: cs4 =>
            let (es, cs5) := scanSign cs4
            let (ev, evn, cs6) := scanDigits cs5 0
            if evn = 0 then none
            else some (mant * (10 : ℚ) ^ (es * ev), cs6)
        | 'E' :: cs4 =>
            let (es, cs5) := scanSign cs4
            let (ev, evn, cs6) := scanDigits cs5 0
            if evn = 0 then none
            else some (mant * (10 : ℚ) ^ (es * ev), cs6)
        | _ => some (mant, cs3)
  | 'e' :: cs2 =>
      if ipn = 0 then none
      else
        let (es, cs3) := scanSign cs2
        let (ev, evn, cs4) := scanDigits cs3 0
        if evn = 0 then none else some ((ip : ℚ) * (10 : ℚ) ^ (es * ev), cs4)
  | 'E' :: cs2 =>
      if ipn = 0 then none
      else
        let (es, cs3) := scanSign cs2
        let (ev, evn, cs4) := scanDigits cs3 0
        if evn = 0 then none else some ((ip : ℚ) * (10 : ℚ) ^ (es * ev), cs4)
  | _ => if ipn = 0 then none else some ((ip : ℚ), cs1)

/-- CPython's `float(s)` on the literal shapes the repository feeds it:
optional surrounding blanks, optional sign, decimal mantissa, optional
exponent.  (The `inf`/`nan` literals and numeric underscores, which no query
in any claim uses, are treated as conversion failures.)  Raises
`ValueError` with CPython's message on failure. -/
def pyFloat (s : String) : Except PyExc ℚ :=
  let cs := (s.data.dropWhile (fun c => isPyWs c)).reverse.dropWhile
      (fun c => isPyWs c) |>.reverse
  let sgp := scanSign cs
  match scanFloatBody sgp.2 with
  | some (q, []) => .ok ((sgp.1 : ℚ) * q)
  | _ => .error (.valueError (floatErrMsg s))

/-- JSON whitespace skipping. -/
def skipWs (cs : List Char) : List Char := cs.dropWhile (fun c => isPyWs c)

/-- Left and right brace characters, written via their code points. -/
def lbrace : Char := Char.ofNat 123

/-- Right brace character. -/
def rbrace : Char := Char.ofNat 125

/-- Translation of a one-character JSON escape. -/
def jEsc (e : Char) : Option Char :=
  if e = '"' then some '"'
  else if e = '\\' then some '\\'
  else if e = '/' then some '/'
  else if e = 'b' then some (Char.ofNat 8)
  else if e = 'f' then some (Char.ofNat 12)
  else if e = 'n' then some '\n'
  else if e = 'r' then some '\r'
  else if e = 't' then some '\t'
  else none

/-- Value of a hexadecimal digit character, by code point ranges. -/
def hexVal (c : Char) : Option ℕ :=
  let n := c.toNat
  if 48 ≤ n && n ≤ 57 then some (n - 48)
  else if 97 ≤ n && n ≤ 102 then some (n - 87)
  else if 65 ≤ n && n ≤ 70 then some (n - 55)
  else none

/-- Reads the body of a JSON string literal (opening quote already
consumed), handling the escape sequences of RFC 8259. -/
def scanJStr : List Char → Option (List Char × List Char)
  | [] => none
  | '"' :: rest => some ([], rest)
  | '\\' :: rest =>
      match rest with
      | [] => none
      | 'u' :: h1 :: h2 :: h3 :: h4 :: rest2 =>
          match hexVal h1, hexVal h2, hexVal h3, hexVal h4 with
          | some a, some b, some c, some d =>
              match scanJStr rest2 with
              | some (body, rem) =>
                  some (Char.ofNat (((a * 16 + b) * 16 + c) * 16 + d) :: body, rem)
              | none => none
          | _, _, _, _ => none
      | e :: rest2 =>
          match jEsc e with
          | some c =>
              match scanJStr rest2 with
              | some (body, rem) => some (c :: body, rem)
              | none => none
          | none => none
  | c :: rest =>
      match scanJStr rest with
      | some (body, rem) => some (c :: body, rem)
      | none => none

/-- JSON number: optional minus, integer part, optional fraction and
exponent, as an exact rational. -/
def scanJNum (cs : List Char) : Option (ℚ × List Char) :=
  match cs with
  | '-' :: rest =>
      match scanFloatBody rest with
      | some (q, rem) => some (-q, rem)
      | none => none
  | _ => scanFloatBody cs

/-- Parser mode for the single fuel-indexed JSON reader: a plain value, the
items of an array after `[`, or the members of an object after the brace. -/
inductive JMode where
  | value
  | arrItems (acc : List PyVal)
  | objItems (acc : List (String × PyVal))

/-- One recursive-descent JSON reader covering values, array items and
object members; `fuel` strictly decreases on every recursive call, and
`json_loads` supplies enough of it for any input. -/
def jsonStep (fuel : ℕ) (m : JMode) (cs : List Char) :
    Except PyExc (PyVal × List Char) :=
  match fuel with
  | 0 => .error (.jsonDecodeError "Expecting value")
  | fuel + 1 =>
    match m with
    | .value =>
        match skipWs cs with
        | [] => .error (.jsonDecodeError "Expecting value")
        | c :: rest =>
            if c = lbrace then
              match skipWs rest with
              | c2 :: rest2 =>
                  if c2 = rbrace then .ok (.obj [], rest2)
                  else jsonStep fuel (.objItems []) rest
              | [] => .error (.jsonDecodeError "Expecting property name")
            else if c = '[' then
              match skipWs rest with
              | ']' :: rest2 => .ok (.arr [], rest2)
              | _ => jsonStep fuel (.arrItems []) rest
            else if c = '"' then
              match scanJStr rest with
              | some (body, rem) => .ok (.str (String.mk body), rem)
              | none => .error (.jsonDecodeError "Unterminated string")
            else if charsStartWith "true".data (c :: rest) then
              .ok (.boolean true, rest.drop 3)
            else if charsStartWith "false".data (c :: rest) then
              .ok (.boolean false, rest.drop 4)
            else if charsStartWith "null".data (c :: rest) then
              .ok (.null, rest.drop 3)
            else
              match scanJNum (c :: rest) with
              | some (q, rem) => .ok (.num q, rem)
              | none => .error (.jsonDecodeError "Expecting value")
    | .arrItems acc =>
        match jsonStep fuel .value cs with
        | .error e => .error e
        | .ok (v, cs2) =>
            match skipWs cs2 with
            | ',' :: cs3 => jsonStep fuel (.arrItems (acc ++ [v])) cs3
            | ']' :: cs3 => .ok (.arr (acc ++ [v]), cs3)
            | _ => .error (.jsonDecodeError "Expecting comma")
    | .objItems acc =>
        match skipWs cs with
        | '"' :: cs1 =>
            match scanJStr cs1 with
            | none => .error (.jsonDecodeError "Unterminated string")
            | some (key, cs2) =>
                match skipWs cs2 with
                | ':' :: cs3 =>
                    match jsonStep fuel .value cs3 with
                    | .error e => .error e
                    | .ok (v, cs4) =>
                        let acc2 := dictSet acc (String.mk key) v
                        match skipWs cs4 with
                        | ',' :: cs5 => jsonStep fuel (.objItems acc2) cs5
                        | c5 :: cs5 =>
                            if c5 = rbrace then .ok (.obj acc2, cs5)
                            else .error (.jsonDecodeError "Expecting comma")
                        | [] => .error (.jsonDecodeError "Expecting comma")
                | _ => .error (.jsonDecodeError "Expecting colon")
        | _ => .error (.jsonDecodeError "Expecting property name")

/-- The model of `json.loads`: parse one JSON value and require only
whitespace to follow, raising `JSONDecodeError` otherwise. -/
def json_loads (s : String) : Except PyExc PyVal :=
  match jsonStep (2 * s.data.length + 8) .value s.data with
  | .error e => .error e
  | .ok (v, rem) =>
      match skipWs rem with
      | [] => .ok v
      | _ => .error (.jsonDecodeError "Extra data")


/-- Python `k in v` on an arbitrary value: key membership for a dict,
element membership for a list, substring test for a string, and a
`TypeError` for non-container values. -/
def pyContains (v : PyVal) (k : String) : Except PyExc Bool :=
  match v with
  | .obj l => .ok (dictHasKey l k)
  | .arr l => .ok (l.any fun e => match e with | .str s => s = k | _ => false)
  | .str s => .ok (strHasSub k s)
  | .num _ => .error (.typeError "argument of type 'float' is not iterable")
  | .boolean _ => .error (.typeError "argument of type 'bool' is not iterable")
  | .null => .error (.typeError "argument of type 'NoneType' is not iterable")

/-- Python `v[k]` with a string key: dict lookup, `TypeError` otherwise. -/
def pyGetItem (v : PyVal) (k : String) : Except PyExc PyVal :=
  match v with
  | .obj l =>
      match dictFind l k with
      | some x => .ok x
      | none => .error (.keyError k)
  | .arr _ => .error (.typeError "list indices must be integers or slices, not str")
  | .str _ => .error (.typeError "string indices must be integers")
  | _ => .error (.typeError "object is not subscriptable")

/-- Python `d.get(k, default)` on a dict value. -/
def pyGetDefault (v : PyVal) (k : String) (d : PyVal) : PyVal :=
  match v with
  | .obj l =>
      match dictFind l k with
      | some x => x
      | none => d
  | _ => d

/-- Python `v.lower()`: succeeds on strings, `AttributeError` otherwise. -/
def pyLower (v : PyVal) : Except PyExc String :=
  match v with
  | .str s => .ok (pyStrLower s)
  | _ => .error (.attributeError "object has no attribute 'lower'")

/-- A calculator parameter used as a number.  The source passes the value
through unchanged and a non-numeric value then raises a `TypeError` at the
calculator's first comparison; the embedding raises that `TypeError` at the
call boundary, which is observationally the same for the dispatcher.
Python treats `bool` as a number (`True == 1`). -/
def toNum (v : PyVal) : Except PyExc ℚ :=
  match v with
  | .num q => .ok q
  | .boolean b => .ok (if b then 1 else 0)
  | _ => .error (.typeError "unsupported operand types for numeric comparison")

/-- A calculator parameter used as a list of numbers (same boundary
convention as `toNum`). -/
def toNumList (v : PyVal) : Except PyExc (List ℚ) :=
  match v with
  | .arr l => l.mapM toNum
  | _ => .error (.typeError "object is not iterable as a list of numbers")

/-- A calculator parameter used as a string (the ratio name, the
compounding frequency); a non-string raises the `AttributeError` the
calculator's own `.lower()` call would raise. -/
def toStrVal (v : PyVal) : Except PyExc String :=
  match v with
  | .str s => .ok s
  | _ => .error (.attributeError "object has no attribute 'lower'")

/-- Python `part.split("=", 1)`: the piece before the first `=` and the
rest, or `none` when there is no `=`. -/
def splitEq1 (cs : List Char) : Option (List Char × List Char) :=
  match cs with
  | [] => none
  | '=' :: rest => some ([], rest)
  | c :: rest =>
      match splitEq1 rest with
      | some (l, r) => some (c :: l, r)
      | none => none

/-- The fallback loop of `parse_text_query` (source lines 103-109): every
`key=value` token updates the parameter dict, coercing the value to a
float when possible and keeping the raw string otherwise. -/
def kvLoop (params : List (String × PyVal)) : List String → List (String × PyVal)
  | [] => params
  | part :: rest =>
      match splitEq1 part.data with
      | none => kvLoop params rest
      | some (k, v) =>
          let key := String.mk k
          let valStr := String.mk v
          let nv : PyVal :=
            match pyFloat valStr with
            | .ok q => .num q
            | .error _ => .str valStr
          kvLoop (dictSet params key nv) rest

/-- Faithful embedding of `parse_text_query` (source lines 46-110): token 0
is the case-insensitive calculation type; the later tokens are mapped per
the fixed grammar of that type.  Raises `ValueError` on an empty query and
propagates the `ValueError` of a failed `float(...)` conversion. -/
def parse_text_query (query : String) : Except PyExc (List (String × PyVal)) := do
  let parts := splitWs query.data
  match parts with
  | [] => .error (.valueError "Consulta vacía")
  | p0 :: restParts =>
    let calc_type := pyStrLower p0
    let params : List (String × PyVal) := [("type", .str calc_type)]
    if calc_type = "roi" ∨ calc_type = "retorno" then
      match restParts with
      | a :: b :: _ => do
          let x ← pyFloat a
          let y ← pyFloat b
          return params ++ [("initial", .num x), ("final", .num y)]
      | _ => return params
    else if calc_type = "compuesto" ∨ calc_type = "interes_compuesto" then
      match restParts with
      | a :: b :: c :: rest => do
          let x ← pyFloat a
          let y ← pyFloat b
          let z ← pyFloat c
          let base := params ++
            [("principal", .num x), ("rate", .num y), ("periods", .num z)]
          match rest with
          | d :: _ => return base ++ [("frequency", .str d)]
          | [] => return base
      | _ => return params
    else if calc_type = "prestamo" ∨ calc_type = "loan" then
      match restParts with
      | a :: b :: c :: _ => do
          let x ← pyFloat a
          let y ← pyFloat b
          let z ← pyFloat c
          return params ++
            [("principal", .num x), ("rate", .num y), ("periods", .num z)]
      | _ => return params
    else if calc_type = "ratio" ∨ calc_type = "ratios" then
      match restParts with
      | a :: rest => do
          let vs ← rest.mapM pyFloat
          return params ++
            [("ratio_name", .str a), ("values", .arr (vs.map .num))]
      | _ => return params
    else if calc_type = "npv" ∨ calc_type = "van" then
      match restParts with
      | a :: b :: rest => do
          let x ← pyFloat a
          let cfs ← (b :: rest).mapM pyFloat
          return params ++ [("rate", .num x), ("cash_flows", .arr (cfs.map .num))]
      | _ => return params
    else if calc_type = "irr" ∨ calc_type = "tir" then
      match restParts with
      | a :: rest => do
          let cfs ← (a :: rest).mapM pyFloat
          return params ++ [("cash_flows", .arr (cfs.map .num))]
      | _ => return params
    else if calc_type = "compare" ∨ calc_type = "comparar" then
      match restParts with
      | a :: b :: rest =>
          return params ++
            [("metric", .str a), ("tickers", .arr ((b :: rest).map .str))]
      | _ => return params
    else
      return kvLoop params restParts

/-- Outcome of `parse_calculation_request`: the source's
`{"success": True, "params": p}` / `{"success": False, "error": e}`. -/
inductive ParseResult where
  | ok (params : PyVal)
  | err (error : String)
  deriving Repr

/-- The missing-type message of `parse_calculation_request`. -/
def missingTypeMsg : String := "Se requiere especificar el tipo de cálculo."

/-- Faithful embedding of `parse_calculation_request` (source lines 13-43):
structured parsing first, positional-text fallback on a JSON decode
failure, missing-type check, and a catch-all `except` that converts any
exception raised on the way into `str(e)`. -/
def parse_calculation_request (query : String) : ParseResult :=
  let attempt : Except PyExc PyVal :=
    match json_loads query with
    | .ok v => .ok v
    | .error _ =>
        match parse_text_query query with
        | .ok p => .ok (.obj p)
        | .error e => .error e
  match attempt with
  | .error e => .err e.msg
  | .ok params =>
      match pyContains params "type" with
      | .error e => .err e.msg
      | .ok true => .ok params
      | .ok false => .err missingTypeMsg


/-- Model of `math.pow` on rationals: exact for integer exponents — the
only exponents reachable in any claim (loan/compound periods are whole
numbers there).  A fractional exponent, whose exact value is irrational
and hence not a rational, is mapped to `0`; no claim depends on it. -/
def powQ (x y : ℚ) : ℚ :=
  if y.den = 1 then x ^ y.num else 0

/-- The two-decimal currency/percentage rendering `"%.2f"` used throughout
the response formatter, on exact rationals (ties round away from the exact
half; the binary-float tie behaviour of CPython is immaterial to every
claim, none of which constrains rendered digits). -/
def fmt2 (q : ℚ) : String :=
  let c : ℤ := round (q * 100)
  let a := c.natAbs
  (if c < 0 then "-" else "") ++ toString (a / 100) ++ "." ++
    (if a % 100 < 10 then "0" else "") ++ toString (a % 100)

/-- Python `str(...)` of a number in an f-string, for the fields rendered
without a format specifier; an integral rational prints as its integer. -/
def ratStr (q : ℚ) : String :=
  if q.den = 1 then toString q.num
  else toString q.num ++ "/" ++ toString q.den

/-- The `result` record of `calculate_roi`. -/
structure RoiRec where
  roi : ℚ
  roi_percent : ℚ
  initial_investment : ℚ
  final_value : ℚ
  profit_loss : ℚ
  deriving Repr

/-- Faithful embedding of `calculate_roi` (source lines 113-141). -/
def calculate_roi (initial_investment final_value : ℚ) : PyResult RoiRec :=
  if initial_investment ≤ 0 then
    .failure "La inversión inicial debe ser mayor que cero."
  else
    let roi := (final_value - initial_investment) / initial_investment
    .success
      { roi := roi
        roi_percent := roi * 100
        initial_investment := initial_investment
        final_value := final_value
        profit_loss := final_value - initial_investment }

/-- The `result` record of `calculate_compound_interest`. -/
structure CompoundRec where
  principal : ℚ
  rate : ℚ
  periods : ℚ
  frequency : String
  compound_frequency : ℕ
  final_amount : ℚ
  interest_earned : ℚ
  deriving Repr

/-- The source's `frequency_map` (lines 175-181). -/
def frequency_map : List (String × ℕ) :=
  [("annual", 1), ("semiannual", 2), ("quarterly", 4), ("monthly", 12),
   ("daily", 365)]

/-- Faithful embedding of `calculate_compound_interest` (lines 144-202):
positivity validation, frequency lookup defaulting to 1, and
`principal * (1 + rate_decimal / freq) ^ (freq * periods)`. -/
def calculate_compound_interest (principal rate periods : ℚ)
    (frequency : String) : PyResult CompoundRec :=
  if principal ≤ 0 then
    .failure "El capital inicial debe ser mayor que cero."
  else if rate ≤ 0 then
    .failure "La tasa de interés debe ser mayor que cero."
  else
    let rate_decimal := rate / 100
    let compound_frequency :=
      (frequency_map.lookup (pyStrLower frequency)).getD 1
    let n := (compound_frequency : ℚ) * periods
    let r := rate_decimal / (compound_frequency : ℚ)
    let final_amount := principal * powQ (1 + r) n
    .success
      { principal := principal
        rate := rate
        periods := periods
        frequency := frequency
        compound_frequency := compound_frequency
        final_amount := final_amount
        interest_earned := final_amount - principal }

/-- One row of the amortization schedule (the source's period dict). -/
structure AmortRow where
  periodo : ℕ
  pago : ℚ
  principalPart : ℚ
  interes : ℚ
  balance_restante : ℚ
  deriving Repr

/-- The `result` record of `calculate_loan_payment`. -/
structure LoanRec where
  principal : ℚ
  rate : ℚ
  periods : ℚ
  monthly_payment : ℚ
  total_payments : ℚ
  total_interest : ℚ
  amortization_sample : List AmortRow
  deriving Repr

/-- The payment computation of `calculate_loan_payment` (source lines
239-244), factored out verbatim: the degenerate zero-rate branch and the
level-payment formula. -/
def loanMonthlyPayment (principal monthly_rate periods : ℚ) : ℚ :=
  if monthly_rate = 0 then principal / periods
  else
    principal * (monthly_rate * powQ (1 + monthly_rate) periods) /
      (powQ (1 + monthly_rate) periods - 1)

/-- The amortization loop of `calculate_loan_payment` (source lines
246-263): iterates `fuel` remaining periods starting at index `period`,
appending a row for the first 5 and last 5 periods only, and accumulating
`total_interest` across every period.  Returns the retained schedule and
the final `total_interest`. -/
def amortLoop (monthly_rate monthly_payment periodsQ : ℚ) :
    ℕ → ℕ → ℚ → ℚ → List AmortRow × ℚ
  | _, 0, _, total_interest => ([], total_interest)
  | period, fuel + 1, balance, total_interest =>
      let interest_payment := balance * monthly_rate
      let principal_payment := monthly_payment - interest_payment
      let balance2 := balance - principal_payment
      let total2 := total_interest + interest_payment
      let rest := amortLoop monthly_rate monthly_payment periodsQ
        (period + 1) fuel balance2 total2
      if period ≤ 5 ∨ (period : ℚ) > periodsQ - 5 then
        ({ periodo := period
           pago := monthly_payment
           principalPart := principal_payment
           interes := interest_payment
           balance_restante := max 0 balance2 } :: rest.1, rest.2)
      else rest

/-- Faithful embedding of `calculate_loan_payment` (source lines 205-276).
`int(periods)` is `⌊periods⌋.toNat` (truncation towards zero equals the
floor for the positive values that pass validation). -/
def calculate_loan_payment (principal rate periods : ℚ) : PyResult LoanRec :=
  if principal ≤ 0 then
    .failure "El monto del préstamo debe ser mayor que cero."
  else if rate ≤ 0 then
    .failure "La tasa de interés debe ser mayor que cero."
  else if periods ≤ 0 then
    .failure "El número de períodos debe ser mayor que cero."
  else
    let monthly_rate := rate / 100 / 12
    let monthly_payment := loanMonthlyPayment principal monthly_rate periods
    let sim := amortLoop monthly_rate monthly_payment periods 1
      (⌊periods⌋.toNat) principal 0
    .success
      { principal := principal
        rate := rate
        periods := periods
        monthly_payment := monthly_payment
        total_payments := monthly_payment * periods
        total_interest := sim.2
        amortization_sample := sim.1 }

/-- One entry of the source's static ratio catalog. -/
structure RatioDef where
  description : String
  required_values : ℕ
  labels : List String
  deriving Repr

/-- The source's `ratios` catalog (lines 292-333), in its insertion
order. -/
def ratiosCatalog : List (String × RatioDef) :=
  [("current",
    { description :=
        "Ratio de liquidez corriente (Activo Corriente / Pasivo Corriente)"
      required_values := 2
      labels := ["Activo Corriente", "Pasivo Corriente"] }),
   ("quick",
    { description :=
        "Ratio de prueba ácida ((Activo Corriente - Inventarios) / Pasivo Corriente)"
      required_values := 3
      labels := ["Activo Corriente", "Inventarios", "Pasivo Corriente"] }),
   ("debt",
    { description := "Ratio de endeudamiento (Pasivo Total / Activo Total)"
      required_values := 2
      labels := ["Pasivo Total", "Activo Total"] }),
   ("roe",
    { description := "Return on Equity - ROE (Beneficio Neto / Patrimonio Neto)"
      required_values := 2
      labels := ["Beneficio Neto", "Patrimonio Neto"] }),
   ("roa",
    { description := "Return on Assets - ROA (Beneficio Neto / Activos Totales)"
      required_values := 2
      labels := ["Beneficio Neto", "Activos Totales"] }),
   ("profit_margin",
    { description := "Margen de Beneficio Neto (Beneficio Neto / Ventas Netas)"
      required_values := 2
      labels := ["Beneficio Neto", "Ventas Netas"] }),
   ("pe",
    { description :=
        "Price-to-Earnings Ratio (Precio por Acción / Beneficio por Acción)"
      required_values := 2
      labels := ["Precio por Acción", "Beneficio por Acción (EPS)"] }),
   ("pb",
    { description :=
        "Price-to-Book Ratio (Precio por Acción / Valor en Libros por Acción)"
      required_values := 2
      labels := ["Precio por Acción", "Valor en Libros por Acción"] })]

/-- The sign-validation message for a label. -/
def signErrMsg (label : String) : String :=
  "El valor para '" ++ label ++ "' debe ser mayor o igual a cero."

/-- The sign-validation loop of `calculate_financial_ratio` (source lines
350-356): for each value in order, fetch `labels[i]` — raising the Python
`IndexError` when the index is past the end of the label list — and reject
a strictly negative value whose label does not contain `"Pasivo"`.
Returns the first rejection message, if any. -/
def ratioSignLoop : List String → List ℚ → Except PyExc (Option String)
  | _, [] => .ok none
  | [], _ :: _ => .error (.indexError "list index out of range")
  | label :: labels, value :: values =>
      if ¬ strHasSub "Pasivo" label ∧ value < 0 then .ok (some (signErrMsg label))
      else ratioSignLoop labels values

/-- The per-ratio formula dispatch of `calculate_financial_ratio` (source
lines 361-501): each recognized name checks its zero-denominator guard and
produces the ratio value plus its threshold-banded explanation.  Indexing
`values[i]` is `values.getD i 0`; every index used is within bounds
because the caller has already checked `required_values`. -/
def ratioFormula (ratio_name : String) (values : List ℚ) :
    Except String (ℚ × String) :=
  let v0 := values.getD 0 0
  let v1 := values.getD 1 0
  let v2 := values.getD 2 0
  if ratio_name = "current" then
    if v1 = 0 then .error "El pasivo corriente no puede ser cero."
    else
      let result := v0 / v1
      .ok (result,
        "Un ratio de liquidez corriente de " ++ fmt2 result ++
        " significa que la empresa tiene $" ++ fmt2 result ++
        " de activos corrientes por cada $1 de pasivos corrientes. " ++
        (if result < 1 then
          "Esto puede indicar problemas para cubrir las obligaciones a corto plazo."
        else if result ≥ 1 ∧ result < 3/2 then
          "Esto indica una capacidad adecuada para cubrir las obligaciones a corto plazo."
        else
          "Esto indica una buena liquidez, aunque un ratio muy alto podría sugerir un uso ineficiente de los activos."))
  else if ratio_name = "quick" then
    if v2 = 0 then .error "El pasivo corriente no puede ser cero."
    else
      let result := (v0 - v1) / v2
      .ok (result,
        "Un ratio de prueba ácida de " ++ fmt2 result ++
        " significa que la empresa tiene $" ++ fmt2 result ++
        " de activos líquidos por cada $1 de pasivos corrientes. " ++
        (if result < 1 then
          "Esto podría indicar dificultades para cubrir las obligaciones a corto plazo sin vender inventarios."
        else
          "Esto indica una buena capacidad para cubrir las obligaciones a corto plazo sin depender de los inventarios."))
  else if ratio_name = "debt" then
    if v1 = 0 then .error "El activo total no puede ser cero."
    else
      let result := v0 / v1
      let rp := result * 100
      .ok (result,
        "Un ratio de endeudamiento del " ++ fmt2 rp ++
        "% significa que el " ++ fmt2 rp ++
        "% de los activos de la empresa están financiados con deuda. " ++
        (if result < 2/5 then
          "Este nivel de endeudamiento es generalmente considerado bajo."
        else if result ≥ 2/5 ∧ result < 3/5 then
          "Este nivel de endeudamiento es generalmente considerado moderado."
        else
          "Este nivel de endeudamiento es generalmente considerado alto."))
  else if ratio_name = "roe" then
    if v1 = 0 then .error "El patrimonio neto no puede ser cero."
    else
      let result := v0 / v1
      let rp := result * 100
      .ok (result,
        "Un ROE del " ++ fmt2 rp ++
        "% significa que la empresa genera un beneficio de $" ++ fmt2 result ++
        " por cada $1 invertido por los accionistas. " ++
        (if result < 1/10 then
          "Este retorno es generalmente considerado bajo."
        else if result ≥ 1/10 ∧ result < 1/5 then
          "Este retorno es generalmente considerado adecuado."
        else
          "Este retorno es generalmente considerado bueno."))
  else if ratio_name = "roa" then
    if v1 = 0 then .error "Los activos totales no pueden ser cero."
    else
      let result := v0 / v1
      let rp := result * 100
      .ok (result,
        "Un ROA del " ++ fmt2 rp ++
        "% significa que la empresa genera un beneficio de $" ++ fmt2 result ++
        " por cada $1 en activos. " ++
        (if result < 1/20 then
          "Este retorno sobre activos es generalmente considerado bajo."
        else if result ≥ 1/20 ∧ result < 1/10 then
          "Este retorno sobre activos es generalmente considerado adecuado."
        else
          "Este retorno sobre activos es generalmente considerado bueno."))
  else if ratio_name = "profit_margin" then
    if v1 = 0 then .error "Las ventas netas no pueden ser cero."
    else
      let result := v0 / v1
      let rp := result * 100
      .ok (result,
        "Un margen de beneficio neto del " ++ fmt2 rp ++
        "% significa que la empresa genera $" ++ fmt2 result ++
        " de beneficio por cada $1 de ventas. " ++
        "La interpretación de este margen depende del sector de la empresa.")
  else if ratio_name = "pe" then
    if v1 = 0 then .error "El beneficio por acción (EPS) no puede ser cero."
    else
      let result := v0 / v1
      .ok (result,
        "Un ratio P/E de " ++ fmt2 result ++
        " significa que los inversores están dispuestos a pagar $" ++
        fmt2 result ++ " por cada $1 de beneficio por acción. " ++
        (if result < 10 then
          "Este P/E es generalmente considerado bajo, lo que podría indicar que la acción está infravalorada."
        else if result ≥ 10 ∧ result < 20 then
          "Este P/E es generalmente considerado moderado."
        else
          "Este P/E es generalmente considerado alto, lo que podría indicar que los inversores esperan un fuerte crecimiento futuro."))
  else
    if v1 = 0 then .error "El valor en libros por acción no puede ser cero."
    else
      let result := v0 / v1
      .ok (result,
        "Un ratio P/B de " ++ fmt2 result ++
        " significa que los inversores están dispuestos a pagar $" ++
        fmt2 result ++ " por cada $1 de valor en libros. " ++
        (if result < 1 then
          "Este P/B es generalmente considerado bajo, lo que podría indicar que la acción está infravalorada."
        else if result ≥ 1 ∧ result < 3 then
          "Este P/B es generalmente considerado moderado."
        else
          "Este P/B es generalmente considerado alto, lo que podría indicar que los inversores esperan un fuerte rendimiento sobre el patrimonio."))

/-- The `result` record of `calculate_financial_ratio`. -/
structure RatioRec where
  ratio_name : String
  description : String
  valuesUsed : List (String × ℚ)
  ratio_value : ℚ
  ratio_percentage : Option ℚ
  explanation : String
  deriving Repr

/-- Faithful embedding of `calculate_financial_ratio` (source lines
279-513): catalog lookup of the lowercased name, required-count check,
the sign-validation loop (which can raise `IndexError`), then the
per-name formula dispatch.  The trailing branch of `ratioFormula` is
`pb`, the only name left once the recognized-name guard has passed. -/
def calculate_financial_ratio (ratio_name0 : String) (values : List ℚ) :
    Except PyExc (PyResult RatioRec) := do
  let ratio_name := pyStrLower ratio_name0
  match ratiosCatalog.lookup ratio_name with
  | none =>
      return .failure ("Ratio no reconocido. Ratios disponibles: " ++
        String.intercalate ", " (ratiosCatalog.map fun p => p.1))
  | some ratio_info =>
      if values.length < ratio_info.required_values then
        return .failure ("El ratio '" ++ ratio_name ++ "' requiere " ++
          toString ratio_info.required_values ++ " valores: " ++
          String.intercalate ", " ratio_info.labels)
      else
        match ← ratioSignLoop ratio_info.labels values with
        | some msg => return .failure msg
        | none =>
            match ratioFormula ratio_name values with
            | .error e => return .failure e
            | .ok (result, explanation) =>
                return .success
                  { ratio_name := ratio_name
                    description := ratio_info.description
                    valuesUsed := ratio_info.labels.zip values
                    ratio_value := result
                    ratio_percentage :=
                      if ratio_name = "debt" ∨ ratio_name = "roe" ∨
                          ratio_name = "roa" ∨ ratio_name = "profit_margin"
                      then some (result * 100) else none
                    explanation := explanation }

/-- One row of the NPV `detailed_results`. -/
structure NpvRow where
  periodo : ℕ
  flujo_caja : ℚ
  valor_presente : ℚ
  deriving Repr

/-- The `result` record of `calculate_npv`. -/
structure NpvRec where
  npv : ℚ
  rate : ℚ
  cash_flows : List ℚ
  detailed_results : List NpvRow
  interpretation : String
  deriving Repr

/-- One term `cf / (1 + rate_decimal) ** i` of the NPV loops, raising
Python's `ZeroDivisionError` exactly when the denominator is zero (a float
division by `0.0` raises in CPython). -/
def npvTerm (rate_decimal : ℚ) (i : ℕ) (cf : ℚ) : Except PyExc ℚ :=
  let d := (1 + rate_decimal) ^ i
  if d = 0 then .error (.zeroDivisionError "float division by zero")
  else .ok (cf / d)

/-- The accumulation loop of `calculate_npv` (source lines 535-537). -/
def npvSum (rate_decimal : ℚ) : ℕ → List ℚ → Except PyExc ℚ
  | _, [] => .ok 0
  | i, cf :: rest => do
      let t ← npvTerm rate_decimal i cf
      let r ← npvSum rate_decimal (i + 1) rest
      return t + r

/-- The `detailed_results` loop of `calculate_npv` (source lines 539-546). -/
def npvRows (rate_decimal : ℚ) : ℕ → List ℚ → Except PyExc (List NpvRow)
  | _, [] => .ok []
  | i, cf :: rest => do
      let pv ← npvTerm rate_decimal i cf
      let r ← npvRows rate_decimal (i + 1) rest
      return { periodo := i, flujo_caja := cf, valor_presente := pv } :: r

/-- Faithful embedding of `calculate_npv` (source lines 516-561): an empty
series fails, otherwise the discounted sum and the per-period detail are
computed (with `ZeroDivisionError` propagating, as in the source, when
`1 + rate/100` is zero and a period index is positive). -/
def calculate_npv (rate : ℚ) (cash_flows : List ℚ) :
    Except PyExc (PyResult NpvRec) := do
  if cash_flows.isEmpty then
    return .failure "Se requiere al menos un flujo de caja."
  else
    let rate_decimal := rate / 100
    let npv ← npvSum rate_decimal 0 cash_flows
    let detailed ← npvRows rate_decimal 0 cash_flows
    return .success
      { npv := npv
        rate := rate
        cash_flows := cash_flows
        detailed_results := detailed
        interpretation :=
          "Un VAN de " ++ fmt2 npv ++ " significa que el proyecto generará " ++
          (if npv > 0 then "beneficios" else "pérdidas") ++
          " por un valor presente de $" ++ fmt2 |npv| ++ ". " ++
          (if npv > 0 then "El proyecto es financieramente viable."
           else "El proyecto no es financieramente viable.") }

/-- The `result` record of `calculate_irr`. -/
structure IrrRec where
  irr : ℚ
  irr_percent : ℚ
  cash_flows : List ℚ
  interpretation : String
  deriving Repr

/-- Faithful embedding of `calculate_irr` (source lines 564-609) up to the
numeric root solver, which the source delegates to the `np.irr` library
intrinsic: the solver is a parameter, so that theorems can quantify over
it — the validation guards return before any solver runs.  The source's
`try/except` around the solver call maps a raised exception to the
calculation-error record. -/
def calculate_irr (solver : List ℚ → Except PyExc ℚ)
    (cash_flows : List ℚ) : PyResult IrrRec :=
  if cash_flows.isEmpty then
    .failure "Se requiere al menos un flujo de caja."
  else
    let has_positive := cash_flows.any fun cf => cf > 0
    let has_negative := cash_flows.any fun cf => cf < 0
    if ¬ (has_positive ∧ has_negative) then
      .failure "Para calcular la TIR, se necesitan flujos de caja tanto positivos como negativos."
    else
      match solver cash_flows with
      | .error e => .failure ("Error al calcular la TIR: " ++ e.msg)
      | .ok irr =>
          .success
            { irr := irr
              irr_percent := irr * 100
              cash_flows := cash_flows
              interpretation :=
                "Una TIR del " ++ fmt2 (irr * 100) ++
                "% significa que el proyecto genera un rendimiento del " ++
                fmt2 (irr * 100) ++
                "%. Para determinar si el proyecto es viable, compare esta TIR con la tasa mínima de rendimiento requerida." }

/-- NPV of a series at rate `x` (total on `ℚ`), used by the modelled
solver. -/
def npvValueAt (x : ℚ) (cash_flows : List ℚ) : ℚ :=
  (List.range cash_flows.length).zip cash_flows
    |>.foldl (fun acc p => acc + p.2 / (1 + x) ^ p.1) 0

/-- Bounded bisection on `npvValueAt · cash_flows`. -/
def irrBisect (cash_flows : List ℚ) : ℕ → ℚ → ℚ → ℚ
  | 0, lo, hi => (lo + hi) / 2
  | fuel + 1, lo, hi =>
      let mid := (lo + hi) / 2
      if npvValueAt lo cash_flows * npvValueAt mid cash_flows ≤ 0 then
        irrBisect cash_flows fuel lo mid
      else irrBisect cash_flows fuel mid hi

/-- Modelled from the spec: the repository calls numpy's `np.irr`, which is
not part of this repository's source; per the spec (§4.2 and §9) it is an
iterative numeric root solve of `NPV(x) = 0` with a fixed iteration cap,
whose failure is reported as an error rather than a crash.  No claim
depends on the numeric value it produces. -/
def np_irr (cash_flows : List ℚ) : Except PyExc ℚ :=
  let lo : ℚ := -(99/100)
  let hi : ℚ := 100
  if npvValueAt lo cash_flows * npvValueAt hi cash_flows > 0 then
    .error (.valueError "IRR result is not determinate")
  else .ok (irrBisect cash_flows 64 lo hi)

/-- The ROI response block of the dispatcher (source lines 669-679). -/
def roiResponse (d : RoiRec) : String :=
  String.intercalate "\n"
    ["Análisis de Retorno sobre Inversión (ROI):",
     "Inversión inicial: $" ++ fmt2 d.initial_investment,
     "Valor final: $" ++ fmt2 d.final_value,
     "Ganancia/Pérdida: $" ++ fmt2 d.profit_loss,
     "ROI: " ++ fmt2 d.roi_percent ++ "%",
     "",
     "Interpretación: Por cada $1 invertido, " ++
       (if d.roi > 0 then "se ganaron" else "se perdieron") ++
       " $" ++ fmt2 |d.roi| ++ "."]

/-- The compound-interest response block (source lines 681-692). -/
def compoundResponse (d : CompoundRec) : String :=
  String.intercalate "\n"
    ["Cálculo de Interés Compuesto:",
     "Capital inicial: $" ++ fmt2 d.principal,
     "Tasa de interés: " ++ fmt2 d.rate ++ "% (" ++ d.frequency ++ ")",
     "Período: " ++ ratStr d.periods ++ " años",
     "Monto final: $" ++ fmt2 d.final_amount,
     "Interés ganado: $" ++ fmt2 d.interest_earned,
     "",
     "Nota: El interés se capitaliza " ++ d.frequency ++ " (" ++
       toString d.compound_frequency ++ " veces por año)."]

/-- One rendered amortization row plus the ellipsis row the source inserts
after period 5 of a long schedule (source lines 708-716). -/
def loanRowLines (periodsQ : ℚ) (row : AmortRow) : List String :=
  ("Período " ++ toString row.periodo ++ ": Pago $" ++ fmt2 row.pago ++
    " (Principal: $" ++ fmt2 row.principalPart ++ ", Interés: $" ++
    fmt2 row.interes ++ "), Balance restante: $" ++
    fmt2 row.balance_restante) ::
  (if row.periodo = 5 ∧ periodsQ > 10 then ["..."] else [])

/-- The loan response block (source lines 694-716). -/
def loanResponse (d : LoanRec) : String :=
  String.intercalate "\n"
    (["Cálculo de Préstamo:",
      "Monto del préstamo: $" ++ fmt2 d.principal,
      "Tasa de interés anual: " ++ fmt2 d.rate ++ "%",
      "Plazo: " ++ ratStr d.periods ++ " meses",
      "Pago mensual: $" ++ fmt2 d.monthly_payment,
      "Total a pagar: $" ++ fmt2 d.total_payments,
      "Total de intereses: $" ++ fmt2 d.total_interest,
      "",
      "Calendario de amortización (muestra):"] ++
     (d.amortization_sample.map (loanRowLines d.periods)).flatten)

/-- The ratio response block (source lines 718-736). -/
def ratioResponse (d : RatioRec) : String :=
  String.intercalate "\n"
    (["Cálculo de Ratio Financiero: " ++ d.ratio_name,
      "Descripción: " ++ d.description,
      "",
      "Valores utilizados:"] ++
     d.valuesUsed.map (fun p => "- " ++ p.1 ++ ": $" ++ fmt2 p.2) ++
     [(match d.ratio_percentage with
       | some p => "\nResultado: " ++ fmt2 p ++ "%"
       | none => "\nResultado: " ++ fmt2 d.ratio_value),
      "\nInterpretación: " ++ d.explanation])

/-- The NPV response block (source lines 738-756). -/
def npvResponse (d : NpvRec) : String :=
  String.intercalate "\n"
    (["Cálculo del Valor Actual Neto (VAN):",
      "Tasa de descuento: " ++ fmt2 d.rate ++ "%",
      "Flujos de caja: " ++
        String.intercalate ", " (d.cash_flows.map fun cf => "$" ++ fmt2 cf),
      "VAN: $" ++ fmt2 d.npv,
      "",
      "Detalle por período:"] ++
     d.detailed_results.map (fun p =>
       "Período " ++ toString p.periodo ++ ": Flujo $" ++ fmt2 p.flujo_caja ++
       ", Valor presente: $" ++ fmt2 p.valor_presente) ++
     ["\nInterpretación: " ++ d.interpretation])

/-- The IRR response block (source lines 758-767). -/
def irrResponse (d : IrrRec) : String :=
  String.intercalate "\n"
    ["Cálculo de la Tasa Interna de Retorno (TIR):",
     "Flujos de caja: " ++
       String.intercalate ", " (d.cash_flows.map fun cf => "$" ++ fmt2 cf),
     "TIR: " ++ fmt2 d.irr_percent ++ "%",
     "",
     "Interpretación: " ++ d.interpretation]

/-- The calculator-reported failure string of the dispatcher (line 667). -/
def calcErr (e : String) : String := "Error en el cálculo: " ++ e

/-- Faithful embedding of `execute_financial_calculation` (source lines
612-768), the engine's public entry point: parse, per-type required-field
checks, calculator invocation, response formatting.  A raised exception is
an `Except.error`: the source has no handler here, so calculator
exceptions propagate to the caller, while parse failures were already
converted to records by `parse_calculation_request` and surface as
`"Error: ..."` strings. -/
def execute_financial_calculation (query : String) : Except PyExc String := do
  match parse_calculation_request query with
  | .err e => return ("Error: " ++ e)
  | .ok params =>
    let tv ← pyGetItem params "type"
    let calculation_type ← pyLower tv
    if calculation_type = "roi" ∨ calculation_type = "retorno" then
      let hasI ← pyContains params "initial"
      let hasF ← pyContains params "final"
      if ¬ hasI ∨ ¬ hasF then
        return "Error: Se requieren los valores 'initial' (inversión inicial) y 'final' (valor final)."
      else
        let iv ← pyGetItem params "initial" >>= toNum
        let fv ← pyGetItem params "final" >>= toNum
        match calculate_roi iv fv with
        | .failure e => return calcErr e
        | .success d => return roiResponse d
    else if calculation_type = "compuesto" ∨ calculation_type = "interes_compuesto" then
      let hasP ← pyContains params "principal"
      let hasR ← pyContains params "rate"
      let hasN ← pyContains params "periods"
      if ¬ hasP ∨ ¬ hasR ∨ ¬ hasN then
        return "Error: Se requieren los valores 'principal', 'rate' (tasa) y 'periods' (períodos)."
      else
        let p ← pyGetItem params "principal" >>= toNum
        let r ← pyGetItem params "rate" >>= toNum
        let n ← pyGetItem params "periods" >>= toNum
        let f ← toStrVal (pyGetDefault params "frequency" (.str "annual"))
        match calculate_compound_interest p r n f with
        | .failure e => return calcErr e
        | .success d => return compoundResponse d
    else if calculation_type = "prestamo" ∨ calculation_type = "loan" then
      let hasP ← pyContains params "principal"
      let hasR ← pyContains params "rate"
      let hasN ← pyContains params "periods"
      if ¬ hasP ∨ ¬ hasR ∨ ¬ hasN then
        return "Error: Se requieren los valores 'principal', 'rate' (tasa) y 'periods' (períodos)."
      else
        let p ← pyGetItem params "principal" >>= toNum
        let r ← pyGetItem params "rate" >>= toNum
        let n ← pyGetItem params "periods" >>= toNum
        match calculate_loan_payment p r n with
        | .failure e => return calcErr e
        | .success d => return loanResponse d
    else if calculation_type = "ratio" ∨ calculation_type = "ratios" then
      let hasName ← pyContains params "ratio_name"
      let hasVals ← pyContains params "values"
      if ¬ hasName ∨ ¬ hasVals then
        return "Error: Se requieren los valores 'ratio_name' (nombre del ratio) y 'values' (valores para el cálculo)."
      else
        let rn ← pyGetItem params "ratio_name" >>= toStrVal
        let vs ← pyGetItem params "values" >>= toNumList
        match ← calculate_financial_ratio rn vs with
        | .failure e => return calcErr e
        | .success d => return ratioResponse d
    else if calculation_type = "npv" ∨ calculation_type = "van" then
      let hasR ← pyContains params "rate"
      let hasC ← pyContains params "cash_flows"
      if ¬ hasR ∨ ¬ hasC then
        return "Error: Se requieren los valores 'rate' (tasa de descuento) y 'cash_flows' (flujos de caja)."
      else
        let r ← pyGetItem params "rate" >>= toNum
        let cfs ← pyGetItem params "cash_flows" >>= toNumList
        match ← calculate_npv r cfs with
        | .failure e => return calcErr e
        | .success d => return npvResponse d
    else if calculation_type = "irr" ∨ calculation_type = "tir" then
      let hasC ← pyContains params "cash_flows"
      if ¬ hasC then
        return "Error: Se requiere el valor 'cash_flows' (flujos de caja)."
      else
        let cfs ← pyGetItem params "cash_flows" >>= toNumList
        match calculate_irr np_irr cfs with
        | .failure e => return calcErr e
        | .success d => return irrResponse d
    else
      return ("Error: Tipo de cálculo '" ++ calculation_type ++ "' no reconocido.")

/-- Balance after `k` further periods of the amortization recurrence
(`balance := balance * (1 + monthly_rate) - monthly_payment` each period),
starting from balance `b` — the closed companion of the source loop. -/
def balAfter (monthly_rate monthly_payment : ℚ) : ℚ → ℕ → ℚ
  | b, 0 => b
  | b, k + 1 => balAfter monthly_rate monthly_payment
      (b * (1 + monthly_rate) - monthly_payment) k

/-- Sum of the interest components `balance * monthly_rate` over `k`
consecutive periods starting from balance `b` — the quantity the source's
`total_interest` accumulates over ALL periods. -/
def interestSumAll (monthly_rate monthly_payment : ℚ) : ℚ → ℕ → ℚ
  | _, 0 => 0
  | b, k + 1 => b * monthly_rate + interestSumAll monthly_rate monthly_payment
      (b * (1 + monthly_rate) - monthly_payment) k

/-- Sum of the principal components `payment - balance * monthly_rate` over
`k` consecutive periods starting from balance `b`. -/
def principalSumAll (monthly_rate monthly_payment : ℚ) : ℚ → ℕ → ℚ
  | _, 0 => 0
  | b, k + 1 => (monthly_payment - b * monthly_rate) +
      principalSumAll monthly_rate monthly_payment
        (b * (1 + monthly_rate) - monthly_payment) k

/-- The invariant every outcome of the positional-text parser satisfies: a
success always carries a `type` key, and a raised exception's message is
never the missing-type message. -/
def GoodPtq : Except PyExc (List (String × PyVal)) → Prop
  | .ok p => dictHasKey p "type" = true
  | .error e => e.msg ≠ missingTypeMsg

/-- A value/label pair the sign-validation loop rejects. -/
def BadRatioValue (labels : List String) (values : List ℚ) (j : ℕ) : Prop :=
  values.getD j 0 < 0 ∧ ¬ strHasSub "Pasivo" (labels.getD j "")

/-! Helper lemmas. -/

theorem consulta_ne_missing : "Consulta vacía" ≠ missingTypeMsg := by decide

theorem floatErrMsg_ne_missing (t : String) : floatErrMsg t ≠ missingTypeMsg := by
  intro h
  have h2 := congrArg String.data h
  simp only [floatErrMsg, missingTypeMsg, String.data_append] at h2
  have h3 := congrArg List.head? h2
  simp at h3

theorem pyFloat_error (s : String) (e : PyExc) (h : pyFloat s = .error e) :
    e = .valueError (floatErrMsg s) := by
  unfold pyFloat at h
  dsimp only at h
  split at h
  · exact absurd h (by simp)
  · exact (Except.error.inj h).symm

theorem mapM_pyFloat_error (l : List String) (e : PyExc)
    (h : l.mapM pyFloat = .error e) : ∃ t, e = .valueError (floatErrMsg t) := by
  induction l generalizing e with
  | nil => simp [List.mapM, List.mapM.loop, pure, Except.pure] at h
  | cons a rest ih =>
      rw [List.mapM_cons] at h
      cases ha : pyFloat a with
      | error e0 =>
          rw [ha] at h
          simp only [bind, Except.bind] at h
          exact ⟨a, (Except.error.inj h) ▸ pyFloat_error a e0 ha⟩
      | ok q =>
          rw [ha] at h
          simp only [bind, Except.bind] at h
          cases hr : rest.mapM pyFloat with
          | error e1 =>
              rw [hr] at h
              simp only [bind, Except.bind] at h
              have he : e1 = e := Except.error.inj h
              subst he
              exact ih e1 hr
          | ok qs =>
              rw [hr] at h
              simp [bind, Except.bind, pure, Except.pure] at h

theorem dictHasKey_dictSet (l : List (String × PyVal)) (k k0 : String)
    (v : PyVal) (h : dictHasKey l k0 = true) :
    dictHasKey (dictSet l k v) k0 = true := by
  induction l with
  | nil => simp [dictHasKey] at h
  | cons p rest ih =>
      obtain ⟨k1, v1⟩ := p
      simp only [dictSet]
      by_cases hk : k1 = k
      · simp only [if_pos hk, dictHasKey, List.any_cons] at h ⊢
        rcases Bool.or_eq_true_iff.1 h with h1 | h1
        · exact Bool.or_eq_true_iff.2 (Or.inl h1)
        · exact Bool.or_eq_true_iff.2 (Or.inr h1)
      · simp only [if_neg hk, dictHasKey, List.any_cons] at h ⊢
        rcases Bool.or_eq_true_iff.1 h with h1 | h1
        · exact Bool.or_eq_true_iff.2 (Or.inl h1)
        · exact Bool.or_eq_true_iff.2 (Or.inr (ih h1))

theorem kvLoop_hasKey (parts : List String) (params : List (String × PyVal))
    (h : dictHasKey params "type" = true) :
    dictHasKey (kvLoop params parts) "type" = true := by
  induction parts generalizing params with
  | nil => simpa [kvLoop] using h
  | cons part rest ih =>
      simp only [kvLoop]
      cases splitEq1 part.data with
      | none => exact ih _ h
      | some kv => exact ih _ (dictHasKey_dictSet _ _ _ _ h)

theorem goodPtq_bind_pyFloat (s : String)
    (f : ℚ → Except PyExc (List (String × PyVal)))
    (hf : ∀ q, GoodPtq (f q)) : GoodPtq (pyFloat s >>= f) := by
  cases h : pyFloat s with
  | error e =>
      simp only [bind, Except.bind, h, GoodPtq]
      rw [pyFloat_error s e h]
      simpa [PyExc.msg] using floatErrMsg_ne_missing s
  | ok q => simpa [bind, Except.bind, h] using hf q

theorem goodPtq_bind_mapM (l : List String)
    (f : List ℚ → Except PyExc (List (String × PyVal)))
    (hf : ∀ qs, GoodPtq (f qs)) : GoodPtq (l.mapM pyFloat >>= f) := by
  cases h : l.mapM pyFloat with
  | error e =>
      simp only [bind, Except.bind, h, GoodPtq]
      obtain ⟨t, ht⟩ := mapM_pyFloat_error l e h
      rw [ht]
      simpa [PyExc.msg] using floatErrMsg_ne_missing t
  | ok qs => simpa [bind, Except.bind, h] using hf qs

theorem ptq_good (query : String) : GoodPtq (parse_text_query query) := by
  unfold parse_text_query
  dsimp only
  split
  · simp [GoodPtq, PyExc.msg, missingTypeMsg]
  · repeat' first
      | apply goodPtq_bind_pyFloat
      | apply goodPtq_bind_mapM
      | intro _
      | split
    all_goals
      first
        | (simp only [GoodPtq, pure, Except.pure]
           exact kvLoop_hasKey _ _ (by simp [dictHasKey]))
        | simp [GoodPtq, pure, Except.pure, dictHasKey]

theorem pyContains_error_msg (v : PyVal) (k : String) (e : PyExc)
    (h : pyContains v k = .error e) : e.msg ≠ missingTypeMsg := by
  cases v <;> simp_all [pyContains, PyExc.msg, missingTypeMsg] <;>
    rw [← h] <;> decide

/-- Claim C3, counterexample: the empty query fails at the parse boundary
with the message of the `ValueError` raised by `parse_text_query`
(`"Consulta vacía"`), which is not the missing-type message — so the
missing-type error is not the only parse-level error the engine
surfaces. -/
theorem parse_error_other_than_missing_type :
    parse_calculation_request "" = .err "Consulta vacía" ∧
      "Consulta vacía" ≠ missingTypeMsg := ⟨by rfl, by decide⟩

/-- Claim C3, amended: `parse_calculation_request` surfaces the
missing-type error exactly when the structured (JSON) path produces a
value on which the `type`-membership test returns `False`; every other
parse failure surfaces the message of the exception that was raised
(empty query, float-conversion failure, or the membership `TypeError` on
a non-container JSON value), never the missing-type message — the
positional path always sets a `type` key. -/
theorem parse_missing_type_iff_structured (q : String) :
    parse_calculation_request q = .err missingTypeMsg ↔
      ∃ v, json_loads q = .ok v ∧ pyContains v "type" = .ok false := by
  unfold parse_calculation_request
  cases hj : json_loads q with
  | ok v =>
      cases hc : pyContains v "type" with
      | error e =>
          simp only [hc]
          constructor
          · intro h
            exact absurd (ParseResult.err.inj h) (pyContains_error_msg v "type" e hc)
          · rintro ⟨v2, hv2, hcv2⟩
            rw [← Except.ok.inj hv2] at hcv2
            rw [hcv2] at hc
            exact absurd hc (by simp)
      | ok b =>
          cases b with
          | true =>
              simp only [hc]
              constructor
              · intro h
                exact absurd h (by simp)
              · rintro ⟨v2, hv2, hcv2⟩
                rw [← Except.ok.inj hv2] at hcv2
                rw [hcv2] at hc
                simp at hc
          | false =>
              simp only [hc]
              exact ⟨fun _ => ⟨v, rfl, hc⟩, fun _ => trivial⟩
  | error e0 =>
      cases ht : parse_text_query q with
      | ok p =>
          have hg := ptq_good q
          rw [ht] at hg
          simp only [GoodPtq] at hg
          simp only [ht, pyContains, hg]
          constructor
          · intro h
            exact absurd h (by simp)
          · rintro ⟨v2, hv2, _⟩
            exact absurd hv2 (by simp)
      | error e =>
          have hg := ptq_good q
          rw [ht] at hg
          simp only [GoodPtq] at hg
          simp only [ht]
          constructor
          · intro h
            exact absurd (ParseResult.err.inj h) hg
          · rintro ⟨v2, hv2, _⟩
            exact absurd hv2 (by simp)

theorem pyFloat_1 : pyFloat "1" = .ok 1 := by
  simp +decide [pyFloat, scanFloatBody, scanDigits, scanSign, isDig, digVal, isPyWs]

theorem pyFloat_2 : pyFloat "2" = .ok 2 := by
  simp +decide [pyFloat, scanFloatBody, scanDigits, scanSign, isDig, digVal, isPyWs]

theorem pyFloat_3 : pyFloat "3" = .ok 3 := by
  simp +decide [pyFloat, scanFloatBody, scanDigits, scanSign, isDig, digVal, isPyWs]

theorem pyFloat_5 : pyFloat "5" = .ok 5 := by
  simp +decide [pyFloat, scanFloatBody, scanDigits, scanSign, isDig, digVal, isPyWs]

theorem pyFloat_7 : pyFloat "7" = .ok 7 := by
  simp +decide [pyFloat, scanFloatBody, scanDigits, scanSign, isDig, digVal, isPyWs]

theorem pyFloat_50 : pyFloat "50" = .ok 50 := by
  simp +decide [pyFloat, scanFloatBody, scanDigits, scanSign, isDig, digVal, isPyWs]

theorem pyFloat_100 : pyFloat "100" = .ok 100 := by
  simp +decide [pyFloat, scanFloatBody, scanDigits, scanSign, isDig, digVal, isPyWs]

theorem pyFloat_1000 : pyFloat "1000" = .ok 1000 := by
  simp +decide [pyFloat, scanFloatBody, scanDigits, scanSign, isDig, digVal, isPyWs]

theorem pyFloat_1500 : pyFloat "1500" = .ok 1500 := by
  simp +decide [pyFloat, scanFloatBody, scanDigits, scanSign, isDig, digVal, isPyWs]

theorem ptq_ratio_current_123 :
    parse_text_query "ratio current 1 2 3" =
      .ok [("type", .str "ratio"), ("ratio_name", .str "current"),
           ("values", .arr [.num 1, .num 2, .num 3])] := by
  have hs : splitWs "ratio current 1 2 3".data =
      ["ratio", "current", "1", "2", "3"] := by decide
  simp +decide [parse_text_query, hs, List.mapM, List.mapM.loop,
    pyFloat_1, pyFloat_2, pyFloat_3, bind, Except.bind, pure, Except.pure]

theorem pcr_ratio_current_123 :
    parse_calculation_request "ratio current 1 2 3" =
      .ok (.obj [("type", .str "ratio"), ("ratio_name", .str "current"),
                 ("values", .arr [.num 1, .num 2, .num 3])]) := by
  have hj : (json_loads "ratio current 1 2 3").isOk = false := by rfl
  unfold parse_calculation_request
  cases hj2 : json_loads "ratio current 1 2 3" with
  | ok v => rw [hj2] at hj; simp [Except.isOk, Except.toBool] at hj
  | error e0 =>
      simp +decide [ptq_ratio_current_123, pyContains, dictHasKey]

/-- Claim C1, counterexample: on the well-formed positional query
`"ratio current 1 2 3"` the ratio calculator's sign-validation loop
indexes the two-element label list at position 2 and the resulting
`IndexError` propagates out of `execute_financial_calculation` — the
dispatcher does not catch calculator exceptions, does not return a
string here, and surfaces the low-level fault to its caller. -/
theorem exec_propagates_calculator_fault :
    execute_financial_calculation "ratio current 1 2 3" =
      .error (.indexError "list index out of range") := by
  unfold execute_financial_calculation
  rw [pcr_ratio_current_123]
  have hl1 : pyStrLower "ratio" = "ratio" := by decide
  have hl2 : pyStrLower "current" = "current" := by decide
  norm_num +decide [pyGetItem, dictFind, pyLower, hl1, hl2, pyContains,
    dictHasKey, toNum, toNumList, toStrVal, calculate_financial_ratio,
    ratiosCatalog, List.lookup, ratioSignLoop, strHasSub, charsHaveSub,
    charsStartWith, signErrMsg, List.mapM, List.mapM.loop,
    bind, Except.bind, pure, Except.pure]

theorem ptq_ratio_quick_5123 :
    parse_text_query "ratio quick 5 1 2 3" =
      .ok [("type", .str "ratio"), ("ratio_name", .str "quick"),
           ("values", .arr [.num 5, .num 1, .num 2, .num 3])] := by
  have hs : splitWs "ratio quick 5 1 2 3".data =
      ["ratio", "quick", "5", "1", "2", "3"] := by decide
  simp +decide [parse_text_query, hs, List.mapM, List.mapM.loop,
    pyFloat_1, pyFloat_2, pyFloat_3, pyFloat_5, bind, Except.bind, pure,
    Except.pure]

theorem pcr_ratio_quick_5123 :
    parse_calculation_request "ratio quick 5 1 2 3" =
      .ok (.obj [("type", .str "ratio"), ("ratio_name", .str "quick"),
                 ("values", .arr [.num 5, .num 1, .num 2, .num 3])]) := by
  have hj : (json_loads "ratio quick 5 1 2 3").isOk = false := by rfl
  unfold parse_calculation_request
  cases hj2 : json_loads "ratio quick 5 1 2 3" with
  | ok v => rw [hj2] at hj; simp [Except.isOk, Except.toBool] at hj
  | error e0 =>
      simp +decide [ptq_ratio_quick_5123, pyContains, dictHasKey]

/-- Claim C1, amended: every parse-level failure is caught and converted —
whenever `parse_calculation_request` fails with message `e`,
`execute_financial_calculation` returns the string `"Error: " ++ e` — but
an exception raised inside a calculator is not caught at the dispatcher
boundary: on `"ratio quick 5 1 2 3"` (one value too many for the `quick`
ratio) the ratio calculator's `IndexError` propagates out of
`execute_financial_calculation` instead of becoming an error string. -/
theorem exec_catches_parse_errors_not_calculator_faults :
    (∀ q e, parse_calculation_request q = .err e →
        execute_financial_calculation q = .ok ("Error: " ++ e)) ∧
      execute_financial_calculation "ratio quick 5 1 2 3" =
        .error (.indexError "list index out of range") := by
  constructor
  · intro q e h
    unfold execute_financial_calculation
    rw [h]
    rfl
  · unfold execute_financial_calculation
    rw [pcr_ratio_quick_5123]
    have hl1 : pyStrLower "ratio" = "ratio" := by decide
    have hl2 : pyStrLower "quick" = "quick" := by decide
    have hb1 : ("quick" == "current") = false := by decide
    norm_num +decide [pyGetItem, dictFind, pyLower, hl1, hl2, hb1, pyContains,
      dictHasKey, toNum, toNumList, toStrVal, calculate_financial_ratio,
      ratiosCatalog, List.lookup, ratioSignLoop, strHasSub, charsHaveSub,
      charsStartWith, signErrMsg, List.mapM, List.mapM.loop,
      bind, Except.bind, pure, Except.pure]

/-- Witness for the hypothesis of the first part of the amended C1
theorem, at the concrete query `""` whose parse failure message is
`"Consulta vacía"`. -/
theorem exec_catches_parse_errors_witness :
    execute_financial_calculation "" = .ok ("Error: " ++ "Consulta vacía") :=
  exec_catches_parse_errors_not_calculator_faults.1 "" "Consulta vacía" (by rfl)

theorem ptq_ratio_current_100507 :
    parse_text_query "ratio current 100 50 7" =
      .ok [("type", .str "ratio"), ("ratio_name", .str "current"),
           ("values", .arr [.num 100, .num 50, .num 7])] := by
  have hs : splitWs "ratio current 100 50 7".data =
      ["ratio", "current", "100", "50", "7"] := by decide
  simp +decide [parse_text_query, hs, List.mapM, List.mapM.loop,
    pyFloat_100, pyFloat_50, pyFloat_7, bind, Except.bind, pure, Except.pure]

theorem pcr_ratio_current_100507 :
    parse_calculation_request "ratio current 100 50 7" =
      .ok (.obj [("type", .str "ratio"), ("ratio_name", .str "current"),
                 ("values", .arr [.num 100, .num 50, .num 7])]) := by
  have hj : (json_loads "ratio current 100 50 7").isOk = false := by rfl
  unfold parse_calculation_request
  cases hj2 : json_loads "ratio current 100 50 7" with
  | ok v => rw [hj2] at hj; simp [Except.isOk, Except.toBool] at hj
  | error e0 =>
      simp +decide [ptq_ratio_current_100507, pyContains, dictHasKey]

/-- Claim C9: giving a recognized ratio more values than its required
count — here `current` (two labels) with the three values
`[100, 50, 7]` — drives the sign-validation loop past the end of the
label list: `calculate_financial_ratio` raises `IndexError` instead of
returning a tagged failure record, and at the public interface the same
exception escapes `execute_financial_calculation`. -/
theorem ratio_excess_values_index_error :
    calculate_financial_ratio "current" [100, 50, 7] =
        .error (.indexError "list index out of range") ∧
      execute_financial_calculation "ratio current 100 50 7" =
        .error (.indexError "list index out of range") := by
  have hl1 : pyStrLower "ratio" = "ratio" := by decide
  have hl2 : pyStrLower "current" = "current" := by decide
  have hcalc : calculate_financial_ratio "current" [100, 50, 7] =
      .error (.indexError "list index out of range") := by
    norm_num +decide [calculate_financial_ratio, hl2, ratiosCatalog,
      List.lookup, ratioSignLoop, strHasSub, charsHaveSub, charsStartWith,
      bind, Except.bind, pure, Except.pure]
  refine ⟨hcalc, ?_⟩
  unfold execute_financial_calculation
  rw [pcr_ratio_current_100507]
  norm_num +decide [pyGetItem, dictFind, pyLower, hl1, hl2, pyContains,
    dictHasKey, toNum, toNumList, toStrVal, hcalc, List.mapM, List.mapM.loop,
    bind, Except.bind, pure, Except.pure]

theorem ptq_roi_1000_1500 :
    parse_text_query "roi 1000 1500" =
      .ok [("type", .str "roi"), ("initial", .num 1000),
           ("final", .num 1500)] := by
  have hs : splitWs "roi 1000 1500".data = ["roi", "1000", "1500"] := by decide
  simp +decide [parse_text_query, hs, pyFloat_1000, pyFloat_1500,
    bind, Except.bind, pure, Except.pure]

theorem pcr_roi_text :
    parse_calculation_request "roi 1000 1500" =
      .ok (.obj [("type", .str "roi"), ("initial", .num 1000),
                 ("final", .num 1500)]) := by
  have hj : (json_loads "roi 1000 1500").isOk = false := by rfl
  unfold parse_calculation_request
  cases hj2 : json_loads "roi 1000 1500" with
  | ok v => rw [hj2] at hj; simp [Except.isOk, Except.toBool] at hj
  | error e0 =>
      simp +decide [ptq_roi_1000_1500, pyContains, dictHasKey]

set_option maxRecDepth 8000 in
set_option maxHeartbeats 3000000 in
theorem json_roi_structured :
    json_loads "\x7b\"type\": \"roi\", \"initial\": 1000, \"final\": 1500\x7d" =
      .ok (.obj [("type", .str "roi"), ("initial", .num 1000),
                 ("final", .num 1500)]) := by
  have c0 : '0'.toNat = 48 := by decide
  have c1 : '1'.toNat = 49 := by decide
  have c5 : '5'.toNat = 53 := by decide
  norm_num +decide [json_loads, jsonStep, skipWs, scanJStr, scanJNum,
    scanFloatBody, scanDigits, scanSign, isDig, digVal, isPyWs, jEsc,
    hexVal, lbrace, rbrace, charsStartWith, dictSet, List.dropWhile, c0, c1, c5]

theorem pcr_roi_json :
    parse_calculation_request
        "\x7b\"type\": \"roi\", \"initial\": 1000, \"final\": 1500\x7d" =
      .ok (.obj [("type", .str "roi"), ("initial", .num 1000),
                 ("final", .num 1500)]) := by
  unfold parse_calculation_request
  rw [json_roi_structured]
  simp +decide [pyContains, dictHasKey]

theorem calculate_roi_1000_1500 :
    calculate_roi 1000 1500 =
      .success { roi := 1/2, roi_percent := 50, initial_investment := 1000,
                 final_value := 1500, profit_loss := 500 } := by
  norm_num [calculate_roi]

theorem exec_roi_text_value :
    execute_financial_calculation "roi 1000 1500" =
      .ok (roiResponse { roi := 1/2, roi_percent := 50,
                         initial_investment := 1000, final_value := 1500,
                         profit_loss := 500 }) := by
  unfold execute_financial_calculation
  rw [pcr_roi_text]
  have hl : pyStrLower "roi" = "roi" := by decide
  norm_num +decide [pyGetItem, dictFind, pyLower, hl, pyContains, dictHasKey,
    toNum, calculate_roi_1000_1500, bind, Except.bind, pure, Except.pure]

/-- Claim C6: the positional query `"roi 1000 1500"` and the structured
request with type `roi`, initial `1000` and final `1500` normalize to the
same parameters, dispatch to `calculate_roi` with the same arguments and
produce the identical result — the dispatcher output is the same string,
namely the formatted result of `calculate_roi 1000 1500`. -/
theorem roi_text_and_structured_agree :
    execute_financial_calculation
        "\x7b\"type\": \"roi\", \"initial\": 1000, \"final\": 1500\x7d" =
      execute_financial_calculation "roi 1000 1500" ∧
    ∃ d, calculate_roi 1000 1500 = .success d ∧
      execute_financial_calculation "roi 1000 1500" = .ok (roiResponse d) := by
  have hjson : execute_financial_calculation
      "\x7b\"type\": \"roi\", \"initial\": 1000, \"final\": 1500\x7d" =
        execute_financial_calculation "roi 1000 1500" := by
    unfold execute_financial_calculation
    rw [pcr_roi_json, pcr_roi_text]
  exact ⟨hjson,
    ⟨_, calculate_roi_1000_1500, exec_roi_text_value⟩⟩

/-- Claim C4: on an empty series, or a series whose entries are all `≥ 0`
or all `≤ 0`, `calculate_irr` returns a validation failure whose outcome
does not depend on the numeric root solver at all — the solver is never
consulted. -/
theorem irr_sign_homogeneous_fails_without_solver (cfs : List ℚ)
    (h : cfs = [] ∨ (∀ c ∈ cfs, 0 ≤ c) ∨ (∀ c ∈ cfs, c ≤ 0)) :
    ∃ e, ∀ solver, calculate_irr solver cfs = .failure e := by
  by_cases he : cfs = []
  · subst he
    exact ⟨"Se requiere al menos un flujo de caja.",
      fun solver => by simp [calculate_irr]⟩
  · have hne : cfs.isEmpty = false := by
      simpa [List.isEmpty_iff] using he
    refine ⟨"Para calcular la TIR, se necesitan flujos de caja tanto positivos como negativos.",
      fun solver => ?_⟩
    unfold calculate_irr
    rw [hne]
    rcases h with h | h | h
    · exact absurd h he
    · have hneg : (cfs.any fun cf => cf < 0) = false := by
        simp only [List.any_eq_false, decide_eq_true_eq]
        intro x hx
        exact not_lt.2 (h x hx)
      simp [hneg]
    · have hpos : (cfs.any fun cf => cf > 0) = false := by
        simp only [List.any_eq_false, decide_eq_true_eq]
        intro x hx
        exact not_lt.2 (h x hx)
      simp [hpos]

/-- Witness for claim C4 at the nonempty all-nonnegative series `[0]` and
separately at the empty series. -/
theorem irr_sign_homogeneous_witness :
    (∀ c ∈ ([0] : List ℚ), 0 ≤ c) ∧
      (∃ e, ∀ solver, calculate_irr solver ([0] : List ℚ) = .failure e) ∧
      (∃ e, ∀ solver, calculate_irr solver ([] : List ℚ) = .failure e) := by
  refine ⟨by simp, ?_, ?_⟩
  · exact irr_sign_homogeneous_fails_without_solver [0]
      (Or.inr (Or.inl (by simp)))
  · exact irr_sign_homogeneous_fails_without_solver []
      (Or.inl rfl)

/-- Claim C10: an unrecognized compounding frequency (case-insensitively
outside the five known names) is not an error: on accepted
principal/rate, `calculate_compound_interest` succeeds, records
`compound_frequency = 1`, and computes precisely the `annual` amounts. -/
theorem compound_unknown_frequency_is_annual (p r per : ℚ) (f : String)
    (hp : 0 < p) (hr : 0 < r)
    (hf : pyStrLower f ∉ ["annual", "semiannual", "quarterly", "monthly", "daily"]) :
    calculate_compound_interest p r per f = .success
      { principal := p, rate := r, periods := per, frequency := f,
        compound_frequency := 1,
        final_amount := p * powQ (1 + r / 100) per,
        interest_earned := p * powQ (1 + r / 100) per - p } ∧
    ∀ rec rec2, calculate_compound_interest p r per f = .success rec →
      calculate_compound_interest p r per "annual" = .success rec2 →
      rec.final_amount = rec2.final_amount ∧
        rec.interest_earned = rec2.interest_earned ∧
        rec.compound_frequency = rec2.compound_frequency := by
  simp only [List.mem_cons, List.mem_singleton, not_or] at hf
  obtain ⟨h1, h2, h3, h4, h5, -⟩ := hf
  have hlook : frequency_map.lookup (pyStrLower f) = none := by
    simp [frequency_map, List.lookup, beq_eq_false_iff_ne.2 h1,
      beq_eq_false_iff_ne.2 h2, beq_eq_false_iff_ne.2 h3,
      beq_eq_false_iff_ne.2 h4, beq_eq_false_iff_ne.2 h5]
  have hlook2 : frequency_map.lookup (pyStrLower "annual") = some 1 := by decide
  have hmain : calculate_compound_interest p r per f = .success
      { principal := p, rate := r, periods := per, frequency := f,
        compound_frequency := 1,
        final_amount := p * powQ (1 + r / 100) per,
        interest_earned := p * powQ (1 + r / 100) per - p } := by
    norm_num [calculate_compound_interest, hlook, not_le.2 hp, not_le.2 hr]
  have hann : calculate_compound_interest p r per "annual" = .success
      { principal := p, rate := r, periods := per, frequency := "annual",
        compound_frequency := 1,
        final_amount := p * powQ (1 + r / 100) per,
        interest_earned := p * powQ (1 + r / 100) per - p } := by
    norm_num [calculate_compound_interest, hlook2, not_le.2 hp, not_le.2 hr]
  refine ⟨hmain, fun rec rec2 hrec hrec2 => ?_⟩
  rw [hmain] at hrec
  rw [hann] at hrec2
  rw [← PyResult.success.inj hrec, ← PyResult.success.inj hrec2]
  exact ⟨rfl, rfl, rfl⟩

/-- Witness for claim C10 at `principal = 100`, `rate = 5`, `periods = 2`,
frequency `"Weekly"`. -/
theorem compound_unknown_frequency_witness :
    (0 : ℚ) < 100 ∧ (0 : ℚ) < 5 ∧
      pyStrLower "Weekly" ∉ ["annual", "semiannual", "quarterly", "monthly", "daily"] ∧
      calculate_compound_interest 100 5 2 "Weekly" = .success
        { principal := 100, rate := 5, periods := 2, frequency := "Weekly",
          compound_frequency := 1,
          final_amount := 100 * powQ (1 + 5 / 100) 2,
          interest_earned := 100 * powQ (1 + 5 / 100) 2 - 100 } := by
  refine ⟨by norm_num, by norm_num, by decide, ?_⟩
  exact (compound_unknown_frequency_is_annual 100 5 2 "Weekly"
    (by norm_num) (by norm_num) (by decide)).1

theorem npvSum_zero_rate (cfs : List ℚ) : ∀ i, npvSum 0 i cfs = .ok cfs.sum := by
  induction cfs with
  | nil => intro i; simp [npvSum]
  | cons cf rest ih =>
      intro i
      simp [npvSum, npvTerm, ih (i + 1), bind, Except.bind, pure, Except.pure]

theorem npvRows_zero_rate (cfs : List ℚ) :
    ∀ i, ∃ rows, npvRows 0 i cfs = .ok rows := by
  induction cfs with
  | nil => intro i; exact ⟨[], by simp [npvRows]⟩
  | cons cf rest ih =>
      intro i
      obtain ⟨rows, hr⟩ := ih (i + 1)
      refine ⟨{ periodo := i, flujo_caja := cf,
                valor_presente := cf / (1 + 0) ^ i } :: rows, ?_⟩
      simp [npvRows, npvTerm, hr, bind, Except.bind, pure, Except.pure]

/-- Claim C8: with discount rate `0`, `calculate_npv` succeeds on every
nonempty series and the reported `npv` is the plain sum of the cash
flows. -/
theorem npv_at_zero_rate_is_sum (cfs : List ℚ) (h : cfs ≠ []) :
    ∃ rec, calculate_npv 0 cfs = .ok (.success rec) ∧ rec.npv = cfs.sum := by
  have hne : cfs.isEmpty = false := by simpa [List.isEmpty_iff] using h
  obtain ⟨rows, hrows⟩ := npvRows_zero_rate cfs 0
  have h0 : (0 : ℚ) / 100 = 0 := by norm_num
  have hval : calculate_npv 0 cfs = .ok (.success
      { npv := cfs.sum, rate := 0, cash_flows := cfs,
        detailed_results := rows,
        interpretation :=
          "Un VAN de " ++ fmt2 cfs.sum ++
          " significa que el proyecto generará " ++
          (if cfs.sum > 0 then "beneficios" else "pérdidas") ++
          " por un valor presente de $" ++ fmt2 |cfs.sum| ++ ". " ++
          (if cfs.sum > 0 then "El proyecto es financieramente viable."
           else "El proyecto no es financieramente viable.") }) := by
    unfold calculate_npv
    rw [hne]
    simp [h0, npvSum_zero_rate cfs 0, hrows, bind, Except.bind, pure,
      Except.pure]
  exact ⟨_, hval, rfl⟩

/-- Witness for claim C8 at the series `[5, -2]`. -/
theorem npv_at_zero_rate_witness :
    ([5, -2] : List ℚ) ≠ [] ∧
      ∃ rec, calculate_npv 0 [5, -2] = .ok (.success rec) ∧
        rec.npv = ([5, -2] : List ℚ).sum :=
  ⟨by simp, npv_at_zero_rate_is_sum [5, -2] (by simp)⟩

theorem catalog_required_eq_labels (name : String) (info : RatioDef)
    (h : ratiosCatalog.lookup name = some info) :
    info.required_values = info.labels.length := by
  simp only [ratiosCatalog, List.lookup] at h
  repeat' split at h
  all_goals first
    | (rw [← Option.some.inj h]; decide)
    | simp at h

theorem ratioSignLoop_first_bad :
    ∀ (labels : List String) (values : List ℚ) (i : ℕ),
      values.length ≤ labels.length →
      i < values.length →
      BadRatioValue labels values i →
      (∀ j < i, ¬ BadRatioValue labels values j) →
      ratioSignLoop labels values =
        .ok (some (signErrMsg (labels.getD i ""))) := by
  intro labels
  induction labels with
  | nil =>
      intro values i hlen hi _ _
      cases values with
      | nil => simp at hi
      | cons v vs => simp at hlen
  | cons l ls ih =>
      intro values i hlen hi hbad hmin
      cases values with
      | nil => simp at hi
      | cons v vs =>
          cases i with
          | zero =>
              obtain ⟨hv, hl⟩ := hbad
              simp only [List.getD_cons_zero] at hv hl
              unfold ratioSignLoop
              rw [if_pos ⟨hl, hv⟩]
              simp [List.getD_cons_zero]
          | succ i0 =>
              have hhead : ¬ BadRatioValue (l :: ls) (v :: vs) 0 :=
                hmin 0 (Nat.succ_pos i0)
              simp only [BadRatioValue, List.getD_cons_zero, not_and] at hhead
              unfold ratioSignLoop
              rw [if_neg (by
                rintro ⟨hl, hv⟩
                exact (hhead hv) hl)]
              have := ih vs i0
                (by simpa using Nat.succ_le_succ_iff.1 (by simpa using hlen))
                (by simpa using Nat.succ_lt_succ_iff.1 (by simpa using hi))
                (by simpa [BadRatioValue, List.getD_cons_succ] using hbad)
                (fun j hj => by
                  have := hmin (j + 1) (Nat.succ_lt_succ hj)
                  simpa [BadRatioValue, List.getD_cons_succ] using this)
              simpa [List.getD_cons_succ] using this

theorem ratioSignLoop_pasivo_exempt :
    ∀ (labels : List String) (values : List ℚ),
      values.length ≤ labels.length →
      (∀ j < values.length, values.getD j 0 < 0 →
        strHasSub "Pasivo" (labels.getD j "")) →
      ratioSignLoop labels values = .ok none := by
  intro labels
  induction labels with
  | nil =>
      intro values hlen _
      cases values with
      | nil => rfl
      | cons v vs => simp at hlen
  | cons l ls ih =>
      intro values hlen hok
      cases values with
      | nil => rfl
      | cons v vs =>
          unfold ratioSignLoop
          rw [if_neg (by
            rintro ⟨hl, hv⟩
            exact hl (by simpa using hok 0 (by simp) (by simpa using hv)))]
          exact ih vs (by simpa using Nat.succ_le_succ_iff.1 (by simpa using hlen))
            (fun j hj hneg => by
              have := hok (j + 1) (by simpa using Nat.succ_lt_succ hj)
                (by simpa [List.getD_cons_succ] using hneg)
              simpa [List.getD_cons_succ] using this)

/-- Claim C5: for a recognized ratio given exactly the required number of
values, the first strictly negative value whose positional label does not
contain `"Pasivo"` makes `calculate_financial_ratio` return a validation
failure naming exactly that label; and the sign-validation loop never
rejects a series whose negative values all sit at `"Pasivo"`-labelled
positions. -/
theorem ratio_sign_validation_per_label :
    (∀ (name : String) (info : RatioDef) (values : List ℚ) (i : ℕ),
        ratiosCatalog.lookup (pyStrLower name) = some info →
        values.length = info.labels.length →
        i < values.length →
        BadRatioValue info.labels values i →
        (∀ j < i, ¬ BadRatioValue info.labels values j) →
        calculate_financial_ratio name values =
          .ok (.failure (signErrMsg (info.labels.getD i "")))) ∧
    (∀ (labels : List String) (values : List ℚ),
        values.length ≤ labels.length →
        (∀ j < values.length, values.getD j 0 < 0 →
          strHasSub "Pasivo" (labels.getD j "")) →
        ratioSignLoop labels values = .ok none) := by
  constructor
  · intro name info values i hlook hlen hi hbad hmin
    have hreq := catalog_required_eq_labels _ _ hlook
    have hloop := ratioSignLoop_first_bad info.labels values i
      (le_of_eq hlen) hi hbad hmin
    unfold calculate_financial_ratio
    dsimp only
    rw [hlook]
    dsimp only
    rw [if_neg (by rw [hlen, hreq]; exact lt_irrefl _)]
    simp [hloop, bind, Except.bind, pure, Except.pure]
  · exact ratioSignLoop_pasivo_exempt

/-- Witness for claim C5: `roe` with values `[-5, 10]` is rejected naming
`Beneficio Neto` (position 0, not a liability label), while the `debt`
labels accept `[-5, 10]` (the negative value sits at the `Pasivo Total`
position). -/
theorem ratio_sign_validation_witness :
    ratiosCatalog.lookup (pyStrLower "roe") = some
      { description := "Return on Equity - ROE (Beneficio Neto / Patrimonio Neto)"
        required_values := 2
        labels := ["Beneficio Neto", "Patrimonio Neto"] } ∧
    calculate_financial_ratio "roe" [-5, 10] =
      .ok (.failure (signErrMsg "Beneficio Neto")) ∧
    ratioSignLoop ["Pasivo Total", "Activo Total"] [-5, 10] = .ok none := by
  refine ⟨by rfl, ?_, ?_⟩
  · have h := ratio_sign_validation_per_label.1 "roe"
      { description := "Return on Equity - ROE (Beneficio Neto / Patrimonio Neto)"
        required_values := 2
        labels := ["Beneficio Neto", "Patrimonio Neto"] }
      [-5, 10] 0 (by rfl) (by rfl) (by norm_num)
      ⟨by norm_num, by decide⟩ (fun j hj => absurd hj (Nat.not_lt_zero j))
    simpa using h
  · exact ratio_sign_validation_per_label.2 ["Pasivo Total", "Activo Total"]
      [-5, 10] (by norm_num)
      (fun j hj hneg => by
        have hj2 : j < 2 := by simpa using hj
        interval_cases j
        · decide
        · norm_num at hneg)

theorem powQ_natCast (x : ℚ) (n : ℕ) : powQ x (n : ℚ) = x ^ n := by
  simp [powQ, Rat.den_natCast, Rat.num_natCast, zpow_natCast]

/-- Claim C7: the loan payment computation never divides by zero — with a
monthly rate of exactly `0` it takes the degenerate `principal / periods`
branch without evaluating the level-payment quotient, and for every
accepted input (`principal > 0`, `rate > 0`, `periods ≥ 1`) the monthly
rate is nonzero and the denominator `(1 + i)^n - 1` of the level-payment
formula is nonzero. -/
theorem loan_payment_never_divides_by_zero :
    (∀ p0 per0 : ℚ, loanMonthlyPayment p0 0 per0 = p0 / per0) ∧
    ∀ (p r : ℚ) (n : ℕ), 0 < p → 0 < r → 1 ≤ n →
      r / 100 / 12 ≠ 0 ∧
      powQ (1 + r / 100 / 12) ((n : ℕ) : ℚ) - 1 ≠ 0 ∧
      loanMonthlyPayment p (r / 100 / 12) ((n : ℕ) : ℚ) =
        p * ((r / 100 / 12) * (1 + r / 100 / 12) ^ n) /
          ((1 + r / 100 / 12) ^ n - 1) := by
  constructor
  · intro p0 per0
    simp [loanMonthlyPayment]
  · intro p r n hp hr hn
    have hmr : 0 < r / 100 / 12 := by positivity
    have hmrne : r / 100 / 12 ≠ 0 := ne_of_gt hmr
    have hpow : 1 < (1 + r / 100 / 12) ^ n :=
      one_lt_pow₀ (by linarith) (by omega)
    have hden : (1 + r / 100 / 12) ^ n - 1 ≠ 0 :=
      sub_ne_zero.2 (ne_of_gt hpow)
    refine ⟨hmrne, ?_, ?_⟩
    · rw [powQ_natCast]
      exact hden
    · rw [loanMonthlyPayment, if_neg hmrne, powQ_natCast]

/-- Witness for claim C7: the zero-rate branch at `principal = 7`,
`periods = 5`, and the accepted input `principal = 1000`, `rate = 12`,
`periods = 12`. -/
theorem loan_payment_never_divides_by_zero_witness :
    loanMonthlyPayment 7 0 5 = 7 / 5 ∧
      ((0 : ℚ) < 1000 ∧ (0 : ℚ) < 12 ∧ 1 ≤ 12) ∧
      (12 : ℚ) / 100 / 12 ≠ 0 ∧
      powQ (1 + 12 / 100 / 12) ((12 : ℕ) : ℚ) - 1 ≠ 0 := by
  have h := loan_payment_never_divides_by_zero.2 1000 12 12
    (by norm_num) (by norm_num) (by norm_num)
  exact ⟨loan_payment_never_divides_by_zero.1 7 5,
    ⟨by norm_num, by norm_num, by norm_num⟩, h.1, h.2.1⟩

theorem principalSumAll_eq_sub_balAfter (mr pmt : ℚ) :
    ∀ (k : ℕ) (b : ℚ), principalSumAll mr pmt b k = b - balAfter mr pmt b k := by
  intro k
  induction k with
  | zero => intro b; simp [principalSumAll, balAfter]
  | succ k ih =>
      intro b
      simp only [principalSumAll, balAfter, ih (b * (1 + mr) - pmt)]
      ring

theorem interestSumAll_add_principalSumAll (mr pmt : ℚ) :
    ∀ (k : ℕ) (b : ℚ),
      interestSumAll mr pmt b k + principalSumAll mr pmt b k = (k : ℚ) * pmt := by
  intro k
  induction k with
  | zero => intro b; simp [interestSumAll, principalSumAll]
  | succ k ih =>
      intro b
      simp only [interestSumAll, principalSumAll]
      have := ih (b * (1 + mr) - pmt)
      push_cast
      linarith

theorem balAfter_closed_form (mr pmt : ℚ) (hmr : mr ≠ 0) :
    ∀ (k : ℕ) (b : ℚ),
      balAfter mr pmt b k = b * (1 + mr) ^ k - pmt * (((1 + mr) ^ k - 1) / mr) := by
  intro k
  induction k with
  | zero => intro b; simp [balAfter]
  | succ k ih =>
      intro b
      simp only [balAfter, ih (b * (1 + mr) - pmt)]
      field_simp
      ring

theorem amortLoop_total_interest (mr pmt P : ℚ) :
    ∀ (fuel : ℕ) (period : ℕ) (b t : ℚ),
      (amortLoop mr pmt P period fuel b t).2 = t + interestSumAll mr pmt b fuel := by
  intro fuel
  induction fuel with
  | zero => intro period b t; simp [amortLoop, interestSumAll]
  | succ fuel ih =>
      intro period b t
      have hb : b - (pmt - b * mr) = b * (1 + mr) - pmt := by ring
      unfold amortLoop
      dsimp only
      split
      · rw [ih (period + 1) (b - (pmt - b * mr)) (t + b * mr), hb,
          interestSumAll]
        ring
      · rw [ih (period + 1) (b - (pmt - b * mr)) (t + b * mr), hb,
          interestSumAll]
        ring

theorem amortLoop_sample_window (mr pmt P : ℚ) :
    ∀ (fuel : ℕ) (period : ℕ) (b t : ℚ),
      ∀ row ∈ (amortLoop mr pmt P period fuel b t).1,
        row.periodo ≤ 5 ∨ (row.periodo : ℚ) > P - 5 := by
  intro fuel
  induction fuel with
  | zero => intro period b t row hrow; simp [amortLoop] at hrow
  | succ fuel ih =>
      intro period b t row hrow
      unfold amortLoop at hrow
      dsimp only at hrow
      by_cases hcond : period ≤ 5 ∨ (period : ℚ) > P - 5
      · rw [if_pos hcond] at hrow
        rcases List.mem_cons.1 hrow with hhead | htail
        · subst hhead
          exact hcond
        · exact ih (period + 1) _ _ row htail
      · rw [if_neg hcond] at hrow
        exact ih (period + 1) _ _ row hrow

/-- Claim C2: for accepted loan inputs with a whole number of periods,
`calculate_loan_payment` succeeds; its `total_interest` is the interest
accumulated over ALL `n` simulated periods (not just the retained
sample), its `total_payments` is the payment times all periods, the sum
of the principal components over ALL periods equals the principal
exactly (in exact arithmetic), and every row of the returned
`amortization_sample` lies in the first-5/last-5 window. -/
theorem loan_totals_over_all_periods (p r : ℚ) (n : ℕ) (mr pmt : ℚ)
    (hp : 0 < p) (hr : 0 < r) (hn : 1 ≤ n)
    (hmrdef : mr = r / 100 / 12)
    (hpmtdef : pmt = p * (mr * (1 + mr) ^ n) / ((1 + mr) ^ n - 1)) :
    calculate_loan_payment p r (n : ℚ) = .success
      { principal := p, rate := r, periods := (n : ℚ),
        monthly_payment := pmt, total_payments := pmt * (n : ℚ),
        total_interest := (amortLoop mr pmt (n : ℚ) 1 n p 0).2,
        amortization_sample := (amortLoop mr pmt (n : ℚ) 1 n p 0).1 } ∧
    (amortLoop mr pmt (n : ℚ) 1 n p 0).2 = interestSumAll mr pmt p n ∧
    principalSumAll mr pmt p n = p ∧
    interestSumAll mr pmt p n + principalSumAll mr pmt p n = (n : ℚ) * pmt ∧
    ∀ row ∈ (amortLoop mr pmt (n : ℚ) 1 n p 0).1,
      row.periodo ≤ 5 ∨ (row.periodo : ℚ) > (n : ℚ) - 5 := by
  subst hmrdef
  subst hpmtdef
  have hmr : 0 < r / 100 / 12 := by positivity
  have hmrne : r / 100 / 12 ≠ 0 := ne_of_gt hmr
  have hpow : 1 < (1 + r / 100 / 12) ^ n := one_lt_pow₀ (by linarith) (by omega)
  have hden : (1 + r / 100 / 12) ^ n - 1 ≠ 0 := sub_ne_zero.2 (ne_of_gt hpow)
  have hnp : (0 : ℚ) < (n : ℚ) := by
    have : 0 < n := by omega
    exact_mod_cast this
  have hpay : loanMonthlyPayment p (r / 100 / 12) ((n : ℕ) : ℚ) =
      p * ((r / 100 / 12) * (1 + r / 100 / 12) ^ n) /
        ((1 + r / 100 / 12) ^ n - 1) := by
    rw [loanMonthlyPayment, if_neg hmrne, powQ_natCast]
  refine ⟨?_, ?_, ?_, ?_, ?_⟩
  · unfold calculate_loan_payment
    rw [if_neg (not_le.2 hp), if_neg (not_le.2 hr), if_neg (not_le.2 hnp)]
    dsimp only
    rw [hpay, Int.floor_natCast, Int.toNat_natCast]
  · rw [amortLoop_total_interest, zero_add]
  · rw [principalSumAll_eq_sub_balAfter,
      balAfter_closed_form (r / 100 / 12) _ hmrne]
    have key : ∀ m A : ℚ, m ≠ 0 → A - 1 ≠ 0 →
        p - (p * A - p * (m * A) / (A - 1) * ((A - 1) / m)) = p := by
      intro m A hm hA
      field_simp
      ring
    exact key _ _ hmrne hden
  · exact interestSumAll_add_principalSumAll _ _ n p
  · exact amortLoop_sample_window _ _ (n : ℚ) n 1 p 0

/-- Witness for claim C2 at `principal = 1000`, `rate = 12`,
`periods = 12`: the principal components over all 12 periods sum to the
principal exactly, and every retained row is in the sampling window. -/
theorem loan_totals_witness :
    ((0 : ℚ) < 1000 ∧ (0 : ℚ) < 12 ∧ 1 ≤ 12) ∧
      principalSumAll (12 / 100 / 12)
        (1000 * ((12 / 100 / 12) * (1 + 12 / 100 / 12) ^ 12) /
          ((1 + 12 / 100 / 12) ^ 12 - 1)) 1000 12 = 1000 :=
  ⟨⟨by norm_num, by norm_num, by norm_num⟩,
    (loan_totals_over_all_periods 1000 12 12 (12 / 100 / 12)
      (1000 * ((12 / 100 / 12) * (1 + 12 / 100 / 12) ^ 12) /
        ((1 + 12 / 100 / 12) ^ 12 - 1))
      (by norm_num) (by norm_num) (by norm_num) rfl rfl).2.2.1⟩
